import Mathlib

/-!
Verification of the level-control simulation core shared by
`level_pump_dpdt_gui.py` and `level_pump_Switch_2.py` (the two files contain
an identical `Debouncer` / `DPDT` / `TankSim` core and an identical
`App.apply_config` / `App.reset`).

Python floats are modelled as exact rationals.  The per-step noise sample
drawn by `random.uniform(-noise_amp, noise_amp)` is passed to `step` as an
explicit parameter; a faithful execution always supplies a sample whose
absolute value is at most `noise_amp`.  GUI-only side effects (chart
clearing, canvas drawing, timers) have no simulation-visible state and are
omitted; the status dictionary that `App.reset` hands to the display is kept,
since it is the observable output of `reset`.
-/

/-- Embeds the `Debouncer` class: `threshold` (seconds), current stable
`state`, and the accumulated dwell `timer`. -/
structure Debouncer where
  threshold : ℚ
  state : Bool
  timer : ℚ
deriving DecidableEq, Repr

/-- Embeds `Debouncer.update(raw, dt)`: if `raw` equals the stable state the
timer resets and the state is returned unchanged; otherwise `dt` accrues on
the timer and the state flips (timer resetting) once the timer reaches the
threshold.  Returns the updated debouncer together with the returned bool. -/
def Debouncer.update (d : Debouncer) (raw : Bool) (dt : ℚ) : Debouncer × Bool :=
  if raw = d.state then
    ({ d with timer := 0 }, d.state)
  else
    let t := d.timer + dt
    if d.threshold ≤ t then ({ d with state := raw, timer := 0 }, raw)
    else ({ d with timer := t }, d.state)

/-- Feeds a constant raw input to a debouncer through a list of time steps,
one `update` call per list element. -/
def Debouncer.run (d : Debouncer) (raw : Bool) : List ℚ → Debouncer
  | [] => d
  | dt :: rest => ((d.update raw dt).1).run raw rest

/-- Embeds the `DPDT` class; `pump_contact` is the raw string field, which
the source compares against the literal "NC". -/
structure DPDT where
  pump_contact : String
deriving DecidableEq, Repr

/-- Embeds `DPDT.pump_on(coil_on)`: with an "NC" contact the pump runs when
the coil is de-energized; with any other contact string it follows the coil. -/
def DPDT.pump_on (r : DPDT) (coil_on : Bool) : Bool :=
  if r.pump_contact = "NC" then !coil_on else coil_on

/-- Round half to even at integer precision, the rounding used by Python's
builtin round (on the idealized exact value). -/
def rhe (y : ℚ) : ℤ :=
  if y - ⌊y⌋ < 1/2 then ⌊y⌋
  else if 1/2 < y - ⌊y⌋ then ⌊y⌋ + 1
  else if ⌊y⌋ % 2 = 0 then ⌊y⌋ else ⌊y⌋ + 1

/-- Embeds Python round(x, 2): round half to even at two decimal places. -/
def round2 (x : ℚ) : ℚ := (rhe (100 * x) : ℚ) / 100

/-- Embeds the mutable state of the `TankSim` class. -/
structure TankSim where
  level : ℚ
  high_sp : ℚ
  low_sp : ℚ
  fill_rate : ℚ
  drain_rate : ℚ
  dt : ℚ
  noise_amp : ℚ
  coil_on : Bool
  dpdt : DPDT
  db_high : Debouncer
  db_low : Debouncer
  pump_mode : String
deriving DecidableEq, Repr

/-- Embeds `TankSim.__init__`: level 50, setpoints 75/40, rates 6/3,
dt 0.2 s, noise 0.5, coil off, NC contact, both debouncers at 0.2 s with
state false and timer 0, FILL mode. -/
def TankSim.init : TankSim :=
  { level := 50, high_sp := 75, low_sp := 40, fill_rate := 6, drain_rate := 3
    dt := 1/5, noise_amp := 1/2, coil_on := false, dpdt := ⟨"NC"⟩
    db_high := ⟨1/5, false, 0⟩, db_low := ⟨1/5, false, 0⟩, pump_mode := "FILL" }

/-- Embeds the status dictionary returned by `TankSim.step` (and fed to the
display by `App.reset`). -/
structure StepResult where
  level : ℚ
  measured : ℚ
  high_closed : Bool
  low_closed : Bool
  coil_on : Bool
  pump_on : Bool
deriving DecidableEq, Repr

/-- The measured level of a step: true level plus the drawn noise sample,
clamped to the 0..100 band (`max(0.0, min(100.0, level + noise))`). -/
def TankSim.measuredVal (s : TankSim) (noise : ℚ) : ℚ :=
  max 0 (min 100 (s.level + noise))

/-- Embeds `TankSim.step(db_high_s, db_low_s)` with the uniform noise sample
made explicit: sets both debounce thresholds from the arguments, computes the
clamped measured level, the raw and debounced switch closures, the hysteresis
coil update (energize on high, de-energize on low, else hold), the DPDT pump
state, the mode-dependent level delta, and the clamped new level; returns the
new state and the status record with level and measured rounded to two
decimals. -/
def TankSim.step (s : TankSim) (db_high_s db_low_s noise : ℚ) : TankSim × StepResult :=
  let meas := s.measuredVal noise
  let raw_high := decide (s.high_sp ≤ meas)
  let raw_low := decide (meas ≤ s.low_sp)
  let hres := Debouncer.update { s.db_high with threshold := db_high_s } raw_high s.dt
  let lres := Debouncer.update { s.db_low with threshold := db_low_s } raw_low s.dt
  let high_closed := hres.2
  let low_closed := lres.2
  let coil := if high_closed then true else if low_closed then false else s.coil_on
  let pump := s.dpdt.pump_on coil
  let delta := (if s.pump_mode = "FILL" then (if pump then s.fill_rate else -s.drain_rate)
                else (if pump then -s.fill_rate else s.drain_rate)) * s.dt
  let level2 := max 0 (min 100 (s.level + delta))
  ({ s with level := level2, coil_on := coil, db_high := hres.1, db_low := lres.1 },
   { level := round2 level2, measured := round2 meas, high_closed := high_closed,
     low_closed := low_closed, coil_on := coil, pump_on := pump })

/-- Runs a sequence of step calls; each input triple supplies the two
debounce-threshold arguments and the noise sample of one call.  Returns the
final state and the list of emitted status records. -/
def TankSim.stepTrace (s : TankSim) : List (ℚ × ℚ × ℚ) → TankSim × List StepResult
  | [] => (s, [])
  | i :: rest =>
    let t := s.step i.1 i.2.1 i.2.2
    let r := t.1.stepTrace rest
    (r.1, t.2 :: r.2)

/-- Embeds the Tk variables read by `App.apply_config` (`var_dtms` is an
IntVar, the rest are DoubleVars or StringVars). -/
structure AppVars where
  var_high : ℚ
  var_low : ℚ
  var_fill : ℚ
  var_drain : ℚ
  var_dtms : ℤ
  var_init : ℚ
  var_noise : ℚ
  var_pump : String
  var_mode : String
deriving DecidableEq, Repr

/-- Embeds `App.apply_config`: reads the variables, coerces the low setpoint
to high - 1 when low >= high (writing the coerced value back to the low
variable), and writes every configuration field into the simulation; coil and
debouncer fields are untouched.  Chart clearing is GUI-only and omitted. -/
def App.apply_config (v : AppVars) (sim : TankSim) : AppVars × TankSim :=
  let high := v.var_high
  let low := if high ≤ v.var_low then high - 1 else v.var_low
  ({ v with var_low := low },
   { sim with
      high_sp := high, low_sp := low,
      fill_rate := v.var_fill, drain_rate := v.var_drain,
      dt := (v.var_dtms : ℚ) / 1000,
      level := v.var_init, noise_amp := v.var_noise,
      dpdt := { sim.dpdt with pump_contact := v.var_pump },
      pump_mode := v.var_mode })

/-- Embeds `App.reset`: stops the timer (GUI-only), calls `apply_config`, and
hands the display a literal rest-state status record built from the new level;
the simulation's coil and debouncers are not written.  Returns variables, the
simulation state and the displayed status. -/
def App.reset (v : AppVars) (sim : TankSim) : AppVars × TankSim × StepResult :=
  let a := App.apply_config v sim
  (a.1, a.2,
   { level := a.2.level, measured := a.2.level, high_closed := false,
     low_closed := false, coil_on := false, pump_on := false })

/-- The Tk variable values matching `TankSim.init` defaults (debounce
variable omitted: it only feeds the step arguments). -/
def varsInit : AppVars :=
  { var_high := 75, var_low := 40, var_fill := 6, var_drain := 3,
    var_dtms := 200, var_init := 50, var_noise := 1/2,
    var_pump := "NC", var_mode := "FILL" }

/-- Claim C5: a single Debouncer.update call: equal raw resets the timer and
keeps the state; differing raw accrues dt and adopts raw (timer resetting)
exactly when the accumulated time reaches the threshold; with threshold 0 a
differing raw is adopted immediately. -/
theorem C5_debouncer_update_spec (d : Debouncer) (raw : Bool) (dt : ℚ) :
    (raw = d.state → d.update raw dt = ({ d with timer := 0 }, d.state)) ∧
    (raw ≠ d.state → d.threshold ≤ d.timer + dt →
      d.update raw dt = ({ d with state := raw, timer := 0 }, raw)) ∧
    (raw ≠ d.state → d.timer + dt < d.threshold →
      d.update raw dt = ({ d with timer := d.timer + dt }, d.state)) ∧
    (d.threshold = 0 → 0 ≤ d.timer → 0 ≤ dt → raw ≠ d.state →
      (d.update raw dt).2 = raw) := by
  refine ⟨fun h => ?_, fun h hle => ?_, fun h hlt => ?_, fun h0 ht hdt h => ?_⟩
  · simp [Debouncer.update, h]
  · simp [Debouncer.update, h, hle]
  · simp [Debouncer.update, h, not_le.mpr hlt]
  · have hle : d.threshold ≤ d.timer + dt := by rw [h0]; linarith
    simp [Debouncer.update, h, hle]

/-- Witness for C5 at a concrete input: a zero-threshold debouncer at rest
adopts a differing raw input on a single call. -/
theorem C5_debouncer_update_spec_witness :
    (true ≠ (⟨0, false, 0⟩ : Debouncer).state) ∧
    (Debouncer.update ⟨0, false, 0⟩ true 1).2 = true :=
  ⟨by decide,
   (C5_debouncer_update_spec ⟨0, false, 0⟩ true 1).2.2.2 rfl le_rfl
     (by norm_num) (by decide)⟩

/-- Running a debouncer on a raw input equal to its stable state never
changes the stable state. -/
theorem Debouncer.run_state_eq (b : Bool) :
    ∀ (dts : List ℚ) (d : Debouncer), d.state = b → ((d.run b dts).state = b)
  | [], d, h => h
  | dt :: rest, d, h => by
    have : (d.update b dt).1.state = b := by
      simp [Debouncer.update, h]
    simpa [Debouncer.run] using Debouncer.run_state_eq b rest _ this

/-- With a constant flipped raw input and non-negative time steps, the state
after the run is flipped exactly when the timer carried in plus the total
supplied time reaches the threshold (and the list is non-empty). -/
theorem Debouncer.run_flip (T : ℚ) (s : Bool) :
    ∀ (dts : List ℚ), (∀ x ∈ dts, 0 ≤ x) → ∀ acc : ℚ,
      ((Debouncer.run ⟨T, s, acc⟩ (!s) dts).state =
        if dts ≠ [] ∧ T ≤ acc + dts.sum then !s else s)
  | [], _, acc => by simp [Debouncer.run]
  | dt :: rest, h, acc => by
    have hdt : 0 ≤ dt := h dt (List.mem_cons_self dt rest)
    have hrest : ∀ x ∈ rest, 0 ≤ x := fun x hx => h x (List.mem_cons_of_mem dt hx)
    have hraw : (!s) ≠ s := Bool.not_ne_self s
    by_cases hT : T ≤ acc + dt
    · have hstep : (Debouncer.update ⟨T, s, acc⟩ (!s) dt).1 = ⟨T, !s, 0⟩ := by
        simp [Debouncer.update, hraw, hT]
      have hsum : 0 ≤ rest.sum := List.sum_nonneg hrest
      have : T ≤ acc + (dt :: rest).sum := by
        simp only [List.sum_cons]; linarith
      simp only [Debouncer.run, hstep, ne_eq, reduceCtorEq, not_false_eq_true,
        true_and, this, if_pos]
      exact Debouncer.run_state_eq (!s) rest ⟨T, !s, 0⟩ rfl
    · have hstep : (Debouncer.update ⟨T, s, acc⟩ (!s) dt).1 = ⟨T, s, acc + dt⟩ := by
        simp [Debouncer.update, hraw, not_le.mpr (lt_of_not_le hT)]
      have ih := Debouncer.run_flip T s rest hrest (acc + dt)
      simp only [Debouncer.run, hstep, ih]
      rcases List.eq_nil_or_concat rest with hr | _
      · subst hr
        simp only [ne_eq, not_true_eq_false, false_and, if_false, List.sum_cons,
          List.sum_nil, add_zero, reduceCtorEq, not_false_eq_true, true_and]
        rw [if_neg (by linarith)]
      · have hne : rest ≠ [] := by
          rintro rfl
          simp at *
        simp only [hne, ne_eq, not_false_eq_true, true_and, List.sum_cons,
          reduceCtorEq]
        ring_nf

/-- Claim C6: debouncer timing: with threshold T, a raw value that flips at
local time 0 (timer 0) and stays flipped, and non-negative per-call time
steps, the stable output is flipped after the n-th call exactly when the
cumulative dt supplied through call n has reached T — so the output flips at
the first such call and at no earlier call. -/
theorem C6_debouncer_timing (T : ℚ) (s : Bool) (dts : List ℚ)
    (h : ∀ x ∈ dts, 0 ≤ x) :
    ∀ n : ℕ, 1 ≤ n → n ≤ dts.length →
      ((Debouncer.run ⟨T, s, 0⟩ (!s) (dts.take n)).state = !s ↔
        T ≤ (dts.take n).sum) := by
  intro n h1 hn
  have hh : ∀ x ∈ dts.take n, 0 ≤ x := fun x hx => h x (List.take_subset n dts hx)
  have hne : dts.take n ≠ [] := by
    have : (dts.take n).length = n := List.length_take_of_le hn
    intro hcon
    rw [hcon] at this
    simp at this
    omega
  have key := Debouncer.run_flip T s (dts.take n) hh 0
  rw [zero_add] at key
  constructor
  · intro hst
    by_contra hTs
    rw [if_neg (by tauto)] at key
    rw [key] at hst
    exact Bool.not_ne_self s hst.symm
  · intro hTs
    rw [if_pos ⟨hne, hTs⟩] at key
    exact key

/-- Witness for C6 at a concrete input: threshold 0.25, three calls of 0.1
seconds each — the output has flipped after the third call. -/
theorem C6_debouncer_timing_witness :
    (Debouncer.run ⟨1/4, false, 0⟩ (!false) ([1/10, 1/10, 1/10].take 3)).state
      = !false := by
  have h := C6_debouncer_timing (1/4) false [1/10, 1/10, 1/10]
    (by intro x hx; fin_cases hx <;> norm_num) 3 (by norm_num) (by norm_num)
  exact h.mpr (by norm_num)

/-- Claim C7: the DPDT relay mapping satisfies the full truth table: NC with
coil off gives pump on, NC with coil on gives pump off, NO with coil on gives
pump on, NO with coil off gives pump off.  (It is total by construction: a
Lean function on these inputs.) -/
theorem C7_relay_truth_table :
    DPDT.pump_on ⟨"NC"⟩ false = true ∧ DPDT.pump_on ⟨"NC"⟩ true = false ∧
    DPDT.pump_on ⟨"NO"⟩ true = true ∧ DPDT.pump_on ⟨"NO"⟩ false = false := by
  refine ⟨?_, ?_, ?_, ?_⟩ <;> simp [DPDT.pump_on]

/-- Claim C10: any pump_contact string other than exactly "NC" makes pump_on
return the coil state, i.e. it silently behaves as NO instead of being
rejected. -/
theorem C10_non_NC_behaves_NO (c : String) (h : c ≠ "NC") (b : Bool) :
    DPDT.pump_on ⟨c⟩ b = b := by
  simp [DPDT.pump_on, h]

/-- Witness for C10 at concrete inputs: the lowercase string "nc" and the
empty string both behave as NO. -/
theorem C10_non_NC_behaves_NO_witness :
    DPDT.pump_on ⟨"nc"⟩ true = true ∧ DPDT.pump_on ⟨""⟩ false = false :=
  ⟨C10_non_NC_behaves_NO "nc" (by decide) true,
   C10_non_NC_behaves_NO "" (by decide) false⟩

/-- Clamping to the 0..100 band lands in the 0..100 band. -/
theorem clamp_bounds (x : ℚ) : 0 ≤ max 0 (min 100 x) ∧ max 0 (min 100 x) ≤ 100 :=
  ⟨le_max_left 0 _, max_le (by norm_num) (min_le_left 100 x)⟩

/-- Round half to even differs from its argument by at most one half. -/
theorem rhe_bounds (y : ℚ) : y - 1/2 ≤ (rhe y : ℚ) ∧ (rhe y : ℚ) ≤ y + 1/2 := by
  have h1 : (⌊y⌋ : ℚ) ≤ y := Int.floor_le y
  have h2 : y < ⌊y⌋ + 1 := Int.lt_floor_add_one y
  unfold rhe
  split_ifs with ha hb hc <;> push_cast <;> constructor <;> linarith

/-- Rounding to two decimals keeps a value of the 0..100 band in the band. -/
theorem round2_bounds (x : ℚ) (h0 : 0 ≤ x) (h1 : x ≤ 100) :
    0 ≤ round2 x ∧ round2 x ≤ 100 := by
  obtain ⟨hl, hu⟩ := rhe_bounds (100 * x)
  have hzl : (0 : ℤ) ≤ rhe (100 * x) := by
    have hq : (-1 : ℚ) < (rhe (100 * x) : ℚ) := by linarith
    have hz : (-1 : ℤ) < rhe (100 * x) := by exact_mod_cast hq
    omega
  have hzu : rhe (100 * x) ≤ 10000 := by
    have hq : (rhe (100 * x) : ℚ) < 10001 := by linarith
    have hz : rhe (100 * x) < 10001 := by exact_mod_cast hq
    omega
  have hql : (0 : ℚ) ≤ (rhe (100 * x) : ℚ) := by exact_mod_cast hzl
  have hqu : (rhe (100 * x) : ℚ) ≤ 10000 := by exact_mod_cast hzu
  constructor
  · rw [round2]
    positivity
  · rw [round2]
    linarith

/-- Claim C8: in every step the new stored level is the clamp to 0..100 of
the old level plus delta, where delta is +fill_rate (pump on) or -drain_rate
(pump off) times dt in FILL mode, and -fill_rate (pump on) or +drain_rate
(pump off) times dt otherwise, pump being the step's own pump_on output. -/
theorem C8_level_delta (s : TankSim) (dbh dbl noise : ℚ) :
    (s.step dbh dbl noise).1.level =
      max 0 (min 100 (s.level +
        (if s.pump_mode = "FILL"
          then (if (s.step dbh dbl noise).2.pump_on
                then s.fill_rate else -s.drain_rate)
          else (if (s.step dbh dbl noise).2.pump_on
                then -s.fill_rate else s.drain_rate)) * s.dt)) := rfl

/-- The Scenario A tank: default state with the noise amplitude set to 0. -/
def simA : TankSim := { TankSim.init with noise_amp := 0 }

/-- Round half to even of an integer is that integer. -/
theorem rhe_intCast (n : ℤ) : rhe (n : ℚ) = n := by
  unfold rhe
  rw [Int.floor_intCast]
  norm_num

/-- Rounding to two decimals is the identity on multiples of one hundredth. -/
theorem round2_eq_self (x : ℚ) (n : ℤ) (h : (n : ℚ) = 100 * x) : round2 x = x := by
  rw [round2, ← h, rhe_intCast]
  field_simp at h ⊢
  linarith

/-- Claim C9: Scenario A first step: fill mode, NC contact, zero noise,
setpoints 75/40, rates 6/3, dt 0.2, initial level 50, debounce thresholds 0:
the call returns measured 50, both switches open, coil off, pump on, delta
+1.2, and the new level is 51.2 (stored and reported). -/
theorem C9_scenario_A_first_step :
    (simA.step 0 0 0).2.measured = 50 ∧
    (simA.step 0 0 0).2.high_closed = false ∧
    (simA.step 0 0 0).2.low_closed = false ∧
    (simA.step 0 0 0).2.coil_on = false ∧
    (simA.step 0 0 0).2.pump_on = true ∧
    (simA.step 0 0 0).1.level - simA.level = 6/5 ∧
    (simA.step 0 0 0).1.level = 256/5 ∧
    (simA.step 0 0 0).2.level = 256/5 := by
  have hm : simA.measuredVal 0 = 50 := by
    norm_num [TankSim.measuredVal, simA, TankSim.init]
  have hrawh : decide (simA.high_sp ≤ simA.measuredVal 0) = false := by
    rw [hm]; norm_num [simA, TankSim.init]
  have hrawl : decide (simA.measuredVal 0 ≤ simA.low_sp) = false := by
    rw [hm]; norm_num [simA, TankSim.init]
  refine ⟨?_, ?_, ?_, ?_, ?_, ?_, ?_, ?_⟩ <;>
    simp only [TankSim.step, hm, hrawh, hrawl] <;>
    norm_num [simA, TankSim.init, Debouncer.update, DPDT.pump_on] <;>
    first
      | exact round2_eq_self 50 5000 (by norm_num)
      | exact round2_eq_self (256/5) 5120 (by norm_num)

/-- The new stored level of any step is a clamp to the 0..100 band. -/
theorem step_level_clamped (s : TankSim) (a b n : ℚ) :
    ∃ x, (s.step a b n).1.level = max 0 (min 100 x) := ⟨_, rfl⟩

/-- The reported level of a step is the rounded stored level. -/
theorem step_result_level (s : TankSim) (a b n : ℚ) :
    (s.step a b n).2.level = round2 ((s.step a b n).1.level) := rfl

/-- The reported measured value of a step is the rounded clamped measurement. -/
theorem step_result_measured (s : TankSim) (a b n : ℚ) :
    (s.step a b n).2.measured = round2 (s.measuredVal n) := rfl

/-- The measured value is always in the 0..100 band. -/
theorem measuredVal_bounds (s : TankSim) (n : ℚ) :
    0 ≤ s.measuredVal n ∧ s.measuredVal n ≤ 100 := clamp_bounds (s.level + n)

/-- Claim C4: for every sequence of step calls of a validly configured tank
(low below high, non-negative rates and noise amplitude, initial level in
0..100) and arbitrary noise samples, the stored level stays in 0..100 and
every emitted status has its level and measured fields in 0..100 — even when
a noise sample pushes level plus noise outside the band. -/
theorem C4_level_measured_bounds (s : TankSim) (ins : List (ℚ × ℚ × ℚ))
    (hl0 : 0 ≤ s.level) (hl1 : s.level ≤ 100)
    (hsp : s.low_sp < s.high_sp) (hf : 0 ≤ s.fill_rate) (hd : 0 ≤ s.drain_rate)
    (hn : 0 ≤ s.noise_amp) :
    (0 ≤ (s.stepTrace ins).1.level ∧ (s.stepTrace ins).1.level ≤ 100) ∧
    (∀ r ∈ (s.stepTrace ins).2,
      (0 ≤ r.level ∧ r.level ≤ 100) ∧ (0 ≤ r.measured ∧ r.measured ≤ 100)) := by
  induction ins generalizing s with
  | nil =>
    refine ⟨⟨hl0, hl1⟩, ?_⟩
    simp [TankSim.stepTrace]
  | cons i rest ih =>
    have hlev : 0 ≤ (s.step i.1 i.2.1 i.2.2).1.level ∧
        (s.step i.1 i.2.1 i.2.2).1.level ≤ 100 := by
      obtain ⟨x, hx⟩ := step_level_clamped s i.1 i.2.1 i.2.2
      rw [hx]; exact clamp_bounds x
    have hmain := ih (s.step i.1 i.2.1 i.2.2).1 hlev.1 hlev.2 hsp hf hd hn
    constructor
    · simpa [TankSim.stepTrace] using hmain.1
    · intro r hr
      simp only [TankSim.stepTrace, List.mem_cons] at hr
      rcases hr with hr | hr
      · subst hr
        refine ⟨?_, ?_⟩
        · rw [step_result_level]
          exact round2_bounds _ hlev.1 hlev.2
        · rw [step_result_measured]
          exact round2_bounds _ (measuredVal_bounds s i.2.2).1 (measuredVal_bounds s i.2.2).2
      · exact hmain.2 r hr

/-- Witness for C4 at a concrete input: one step of the default tank with a
huge noise amplitude and a noise sample of 1000, far outside the band. -/
theorem C4_level_measured_bounds_witness :
    (0 ≤ (TankSim.stepTrace { TankSim.init with noise_amp := 1000 } [(0, 0, 1000)]).1.level ∧
      (TankSim.stepTrace { TankSim.init with noise_amp := 1000 } [(0, 0, 1000)]).1.level ≤ 100) ∧
    (∀ r ∈ (TankSim.stepTrace { TankSim.init with noise_amp := 1000 } [(0, 0, 1000)]).2,
      (0 ≤ r.level ∧ r.level ≤ 100) ∧ (0 ≤ r.measured ∧ r.measured ≤ 100)) :=
  C4_level_measured_bounds { TankSim.init with noise_amp := 1000 } [(0, 0, 1000)]
    (by norm_num [TankSim.init]) (by norm_num [TankSim.init])
    (by norm_num [TankSim.init]) (by norm_num [TankSim.init])
    (by norm_num [TankSim.init]) (by norm_num [TankSim.init])

/-- The variable values of the C1 scenario: low setpoint 80 above high
setpoint 50, other fields at the defaults. -/
def vC1 : AppVars :=
  { var_high := 50, var_low := 80, var_fill := 6, var_drain := 3,
    var_dtms := 200, var_init := 50, var_noise := 1/2,
    var_pump := "NC", var_mode := "FILL" }

/-- Claim C1 counterexample: applying the configuration with low 80 and high
50 does not fail — the call completes (apply_config is a total function, with
no error path) and mutates the simulation's internal state: the setpoints
become 49 and 50, differing from the previous state, and the low variable is
rewritten too. -/
theorem C1_applyConfig_mutates_counterexample :
    (App.apply_config vC1 TankSim.init).2.low_sp = 49 ∧
    (App.apply_config vC1 TankSim.init).2.high_sp = 50 ∧
    (App.apply_config vC1 TankSim.init).2.low_sp ≠ TankSim.init.low_sp ∧
    (App.apply_config vC1 TankSim.init).2.high_sp ≠ TankSim.init.high_sp ∧
    (App.apply_config vC1 TankSim.init).1.var_low ≠ vC1.var_low := by
  norm_num [App.apply_config, vC1, TankSim.init]

/-- Claim C1 (amended): when configuration is applied with low_sp >= high_sp
the call does not fail: it coerces the low setpoint to high - 1 (writing the
coerced value back to the low variable) and applies the whole configuration,
so the applied setpoints satisfy low < high and the level is set from the
initial-level variable; the coil and debouncer state are not touched. -/
theorem C1_applyConfig_coercion (v : AppVars) (s : TankSim)
    (h : v.var_high ≤ v.var_low) :
    (App.apply_config v s).2.high_sp = v.var_high ∧
    (App.apply_config v s).2.low_sp = v.var_high - 1 ∧
    (App.apply_config v s).2.low_sp < (App.apply_config v s).2.high_sp ∧
    (App.apply_config v s).1.var_low = v.var_high - 1 ∧
    (App.apply_config v s).2.level = v.var_init ∧
    (App.apply_config v s).2.coil_on = s.coil_on ∧
    (App.apply_config v s).2.db_high = s.db_high ∧
    (App.apply_config v s).2.db_low = s.db_low := by
  have hl : (App.apply_config v s).2.low_sp = v.var_high - 1 := by
    show (if v.var_high ≤ v.var_low then v.var_high - 1 else v.var_low) = v.var_high - 1
    rw [if_pos h]
  have hv : (App.apply_config v s).1.var_low = v.var_high - 1 := by
    show (if v.var_high ≤ v.var_low then v.var_high - 1 else v.var_low) = v.var_high - 1
    rw [if_pos h]
  have hlt : (App.apply_config v s).2.low_sp < (App.apply_config v s).2.high_sp := by
    rw [hl]
    show v.var_high - 1 < v.var_high
    linarith
  exact ⟨rfl, hl, hlt, hv, rfl, rfl, rfl, rfl⟩

/-- Witness for the amended C1 at the concrete C1 scenario input. -/
theorem C1_applyConfig_coercion_witness :
    vC1.var_high ≤ vC1.var_low ∧
    (App.apply_config vC1 TankSim.init).2.low_sp = vC1.var_high - 1 :=
  ⟨by norm_num [vC1],
   (C1_applyConfig_coercion vC1 TankSim.init (by norm_num [vC1])).2.1⟩

/-- A simulation state whose coil is energized and whose high debouncer has
latched closed (reachable, e.g., after the level has crossed the high
setpoint). -/
def simC2 : TankSim :=
  { TankSim.init with coil_on := true, db_high := ⟨1/5, true, 0⟩ }

/-- Claim C2 (code bug): resetting from an energized state with the default
variable values sets the level from the initial-level variable as claimed,
but leaves the simulation's coil energized and the high debouncer closed,
even though the status record reset hands to the display reports the coil
de-energized — reset never writes the coil or debouncer fields. -/
theorem C2_reset_keeps_coil_bug :
    (App.reset varsInit simC2).2.1.level = 50 ∧
    (App.reset varsInit simC2).2.1.coil_on = true ∧
    (App.reset varsInit simC2).2.1.db_high.state = true ∧
    (App.reset varsInit simC2).2.2.coil_on = false := by
  norm_num [App.reset, App.apply_config, varsInit, simC2, TankSim.init]

/-- The C3 scenario tank: default state with zero rates (so the level stays
put) and noise amplitude 50, a valid configuration. -/
def simC3 : TankSim :=
  { TankSim.init with fill_rate := 0, drain_rate := 0, noise_amp := 50 }

/-- First C3 step: thresholds 0/0, noise -15, so measured 35 closes the low
switch immediately. -/
def c3s1 : TankSim × StepResult := simC3.step 0 0 (-15)

/-- Second C3 step: thresholds 0/10, noise +30, so measured 80 closes the
high switch immediately while the low debouncer (now on a 10 s threshold)
stays latched closed. -/
def c3s2 : TankSim × StepResult := c3s1.1.step 0 10 30

/-- Third C3 step: thresholds 0/10, noise +10, so measured 60 is strictly
between the setpoints. -/
def c3s3 : TankSim × StepResult := c3s2.1.step 0 10 10

/-- The state after the first C3 step. -/
def c3state1 : TankSim :=
  { level := 50, high_sp := 75, low_sp := 40, fill_rate := 0, drain_rate := 0
    dt := 1/5, noise_amp := 50, coil_on := false, dpdt := ⟨"NC"⟩
    db_high := ⟨0, false, 0⟩, db_low := ⟨0, true, 0⟩, pump_mode := "FILL" }

/-- The state after the second C3 step. -/
def c3state2 : TankSim :=
  { level := 50, high_sp := 75, low_sp := 40, fill_rate := 0, drain_rate := 0
    dt := 1/5, noise_amp := 50, coil_on := true, dpdt := ⟨"NC"⟩
    db_high := ⟨0, true, 0⟩, db_low := ⟨10, true, 1/5⟩, pump_mode := "FILL" }

/-- Claim C3 counterexample: a validly configured tank (low 40 below high 75,
zero rates, noise amplitude 50, level 50) whose noise samples -15, +30, +10
all lie within the amplitude: the low switch debounces closed at step 1, the
coil becomes true at step 2 via a debounced high closure, step 3's measured
value 60 lies strictly between the setpoints — yet step 3 turns the coil off,
because the low debouncer was still latched closed from step 1. -/
theorem C3_latch_counterexample :
    (simC3.low_sp < simC3.high_sp ∧ 0 ≤ simC3.fill_rate ∧ 0 ≤ simC3.drain_rate ∧
      0 ≤ simC3.noise_amp ∧ 0 ≤ simC3.level ∧ simC3.level ≤ 100 ∧
      -simC3.noise_amp ≤ -15 ∧ (30 : ℚ) ≤ simC3.noise_amp ∧
      (10 : ℚ) ≤ simC3.noise_amp) ∧
    (c3s1.1.coil_on = false ∧ c3s2.2.high_closed = true ∧
      c3s2.2.coil_on = true) ∧
    (c3s2.1.measuredVal 10 = 60 ∧ simC3.low_sp < c3s2.1.measuredVal 10 ∧
      c3s2.1.measuredVal 10 < simC3.high_sp) ∧
    c3s3.2.coil_on = false := by
  have m1 : simC3.measuredVal (-15) = 35 := by
    norm_num [TankSim.measuredVal, simC3, TankSim.init]
  have rh1 : decide (simC3.high_sp ≤ simC3.measuredVal (-15)) = false := by
    rw [m1]; norm_num [simC3, TankSim.init]
  have rl1 : decide (simC3.measuredVal (-15) ≤ simC3.low_sp) = true := by
    rw [m1]; norm_num [simC3, TankSim.init]
  have h1 : c3s1.1 = c3state1 := by
    simp only [c3s1, TankSim.step, rh1, rl1]
    norm_num [simC3, TankSim.init, c3state1, Debouncer.update, DPDT.pump_on,
      TankSim.mk.injEq, Debouncer.mk.injEq]
  have m2 : c3state1.measuredVal 30 = 80 := by
    norm_num [TankSim.measuredVal, c3state1]
  have rh2 : decide (c3state1.high_sp ≤ c3state1.measuredVal 30) = true := by
    rw [m2]; norm_num [c3state1]
  have rl2 : decide (c3state1.measuredVal 30 ≤ c3state1.low_sp) = false := by
    rw [m2]; norm_num [c3state1]
  have h2 : c3s2.1 = c3state2 := by
    simp only [c3s2, h1, TankSim.step, rh2, rl2]
    norm_num [c3state1, c3state2, Debouncer.update, DPDT.pump_on,
      TankSim.mk.injEq, Debouncer.mk.injEq]
  have hc2 : c3s2.2.high_closed = true ∧ c3s2.2.coil_on = true := by
    simp only [c3s2, h1, TankSim.step, rh2, rl2]
    norm_num [c3state1, Debouncer.update]
  have m3 : c3state2.measuredVal 10 = 60 := by
    norm_num [TankSim.measuredVal, c3state2]
  have rh3 : decide (c3state2.high_sp ≤ c3state2.measuredVal 10) = false := by
    rw [m3]; norm_num [c3state2]
  have rl3 : decide (c3state2.measuredVal 10 ≤ c3state2.low_sp) = false := by
    rw [m3]; norm_num [c3state2]
  have hcoil3 : c3s3.2.coil_on = false := by
    simp only [c3s3, h2, TankSim.step, rh3, rl3]
    norm_num [c3state2, Debouncer.update]
  have hc1 : c3s1.1.coil_on = false := by rw [h1]; rfl
  refine ⟨?_, ⟨hc1, hc2.1, hc2.2⟩, ?_, hcoil3⟩
  · norm_num [simC3, TankSim.init]
  · rw [h2, m3]
    norm_num [simC3, TankSim.init]

/-- The coil after a step: true if the debounced high output closed, else
false if the debounced low output closed, else the previous coil state. -/
theorem step_coil_eq (s : TankSim) (dbh dbl noise : ℚ) :
    (s.step dbh dbl noise).1.coil_on =
      if (s.step dbh dbl noise).2.high_closed then true
      else if (s.step dbh dbl noise).2.low_closed then false
      else s.coil_on := rfl

/-- The debounced low output of a step, written out. -/
theorem step_low_closed_eq (s : TankSim) (dbh dbl noise : ℚ) :
    (s.step dbh dbl noise).2.low_closed =
      (Debouncer.update { s.db_low with threshold := dbl }
        (decide (s.measuredVal noise ≤ s.low_sp)) s.dt).2 := rfl

/-- Claim C3 (amended): the hysteresis latch, corrected for a lingering low
closure: with the coil energized, (a) any step whose measured value lies
strictly between the setpoints and whose low debouncer is at rest (stable
state false) keeps the coil energized, and (b) whenever a step de-energizes
the coil, that step's debounced low output is closed and its debounced high
output is open — so the coil drops only through a debounced low closure. -/
theorem C3_latch_amended (s : TankSim) (dbh dbl noise : ℚ)
    (hc : s.coil_on = true) :
    (s.db_low.state = false → s.low_sp < s.measuredVal noise →
      s.measuredVal noise < s.high_sp → (s.step dbh dbl noise).1.coil_on = true) ∧
    ((s.step dbh dbl noise).1.coil_on = false →
      (s.step dbh dbl noise).2.low_closed = true ∧
      (s.step dbh dbl noise).2.high_closed = false) := by
  constructor
  · intro hls h1 h2
    have hlow : (s.step dbh dbl noise).2.low_closed = false := by
      rw [step_low_closed_eq, decide_eq_false (not_le.mpr h1)]
      simp [Debouncer.update, hls]
    rw [step_coil_eq, hlow]
    cases hhi : (s.step dbh dbl noise).2.high_closed <;> simp [hc]
  · intro hfalse
    rw [step_coil_eq] at hfalse
    cases hhi : (s.step dbh dbl noise).2.high_closed with
    | true => rw [hhi] at hfalse; simp at hfalse
    | false =>
      rw [hhi] at hfalse
      simp only [Bool.false_eq_true, if_false] at hfalse
      cases hlo : (s.step dbh dbl noise).2.low_closed with
      | true => exact ⟨rfl, rfl⟩
      | false => rw [hlo] at hfalse; simp [hc] at hfalse

/-- The C3 witness tank: the default state with the coil energized. -/
def simC3W : TankSim := { TankSim.init with coil_on := true }

/-- Witness for the amended C3 at a concrete input: energized default tank,
zero noise, measured 50 strictly between 40 and 75, low debouncer at rest:
the coil stays energized. -/
theorem C3_latch_amended_witness :
    simC3W.coil_on = true ∧ (simC3W.step 0 0 0).1.coil_on = true := by
  refine ⟨rfl, (C3_latch_amended simC3W 0 0 0 rfl).1 rfl ?_ ?_⟩ <;>
    norm_num [TankSim.measuredVal, simC3W, TankSim.init]
